import Mathlib

/-!
Verification development for the VCN Flow Log Analyzer
(`scripts/vcn_analyzer.py` of the logan-security-dashboard repository).

The Python source is shallowly embedded: Python floats become exact
rationals (`ℚ`), `datetime` instants become rational epoch seconds,
exceptions become `Option`/`Except`, dict/list state becomes explicit
lists.  Functions keep the source's names where the concrete syntax
allows it.  External collaborators (the Logging-Analytics client and the
standard-library ISO-8601 parser) are parameters of the embedding.
-/

namespace VCN

/-! ## Generic helpers (kernel-computable counterparts of library routines) -/

/-- Stable insertion of one element into a sorted list: the element is
placed before the first entry `b` with `le a b`.  Together with `pySort`
this reproduces the output of Python's stable `list.sort`. -/
def insertLe (le : α → α → Bool) (a : α) : List α → List α
  | [] => [a]
  | b :: bs => if le a b then a :: b :: bs else b :: insertLe le a bs

/-- Stable sort.  A stable sort's output is uniquely determined by the
(total) comparison, so this insertion sort denotes exactly Python's
`list.sort(key=...)` / `sorted(...)`. -/
def pySort (le : α → α → Bool) : List α → List α
  | [] => []
  | a :: t => insertLe le a (pySort le t)

/-- Uppercase a string character by character; denotes Python `str.upper`
on the ASCII action strings used by the analyzer. -/
def pyUpper (s : String) : String := String.mk (s.data.map Char.toUpper)

/-- Structural recursion core of `dedupFirst`; the fuel is always at
least the list length, making the zero-fuel arm unreachable. -/
def dedupFirstFuel [DecidableEq κ] : Nat → List κ → List κ
  | _, [] => []
  | 0, _ :: _ => []
  | fuel + 1, k :: ks => k :: dedupFirstFuel fuel (ks.filter (fun x => !(x == k)))

/-- First-occurrence deduplication, the key order of a Python dict. -/
def dedupFirst [DecidableEq κ] (l : List κ) : List κ :=
  dedupFirstFuel l.length l

/-- Grouping as performed by `defaultdict(list)` filling: keys in first
insertion order, each group holding all matching elements in encounter
order. -/
def groupByKey [DecidableEq κ] (key : α → κ) (l : List α) : List (κ × List α) :=
  (dedupFirst (l.map key)).map (fun k => (k, l.filter (fun a => key a == k)))

/-- Consecutive differences of a list, the loop
`for i in range(1, n): intervals.append(x[i] - x[i-1])`. -/
def pairDiffs : List ℚ → List ℚ
  | [] => []
  | [_] => []
  | a :: b :: rest => (b - a) :: pairDiffs (b :: rest)

/-- Python's `max(iterable, key=f)`: the first element attaining the
maximal key. -/
def argmaxByQ (f : α → ℚ) : List α → Option α
  | [] => none
  | x :: xs => some (xs.foldl (fun best a => if f a > f best then a else best) x)

/-- Python's `min(...)` over a nonempty generator of rationals
(`0` on the empty list, which the analyzer never reaches). -/
def listMinQ : List ℚ → ℚ
  | [] => 0
  | x :: xs => xs.foldl min x

/-- Python's `max(...)` over a nonempty generator of rationals. -/
def listMaxQ : List ℚ → ℚ
  | [] => 0
  | x :: xs => xs.foldl max x

/-- Python `statistics.mean`. -/
def pyMean (l : List ℚ) : ℚ := l.sum / (l.length : ℚ)

/-- Python `statistics.variance` (sample variance, denominator `n - 1`). -/
def pyVariance (l : List ℚ) : ℚ :=
  (l.map (fun x => (x - pyMean l) ^ 2)).sum / ((l.length : ℚ) - 1)

/-- Python `int()` applied to a float: truncation toward zero. -/
def pyInt (q : ℚ) : ℤ := if 0 ≤ q then ⌊q⌋ else -⌊-q⌋

/-- Python `s.replace('Z', '+00:00')` (single-character needle). -/
def replaceZ (s : String) : String :=
  String.mk ((s.data.map (fun c => if c = 'Z' then "+00:00".data else [c])).flatten)

/-! ## Model of the standard-library IP address parser

`FlowRecord._is_internal_ip` calls `ipaddress.ip_address` and reads
`is_private` / `is_loopback`.  The `ipaddress` module is outside the
repository, so it is modelled here from its documented behaviour:
an IPv4 literal is four dot-separated decimal octets (1–3 digits, no
leading zeros, value ≤ 255); IPv6 parsing is modelled for the loopback
shorthand `::1` only; every other string fails to parse, which in the
Python source raises `ValueError`. -/

/-- One decimal octet of an IPv4 literal. -/
def parseOctet (cs : List Char) : Option Nat :=
  if cs.length = 0 ∨ cs.length > 3 then none
  else if !(cs.all Char.isDigit) then none
  else if cs.length > 1 ∧ cs.head? = some '0' then none
  else
    let v := cs.foldl (fun acc c => acc * 10 + (c.toNat - 48)) 0
    if v ≤ 255 then some v else none

/-- Split a character list at dots; `splitDots [] = [[]]` mirrors
`"".split(".") == [""]`. -/
def splitDots : List Char → List (List Char)
  | [] => [[]]
  | c :: rest =>
    let r := splitDots rest
    if c = '.' then [] :: r
    else
      match r with
      | [] => [[c]]
      | g :: gs => (c :: g) :: gs

/-- An address value as produced by `ipaddress.ip_address`. -/
inductive IpAddr
  | v4 (a b c d : Nat)
  | v6loopback
deriving DecidableEq, Repr

/-- Modelled from the spec: the textual address parser of the Python
`ipaddress` standard-library module (an external collaborator, not part
of the repository).  Returns `none` where the library raises
`ValueError`. -/
def ip_address (s : String) : Option IpAddr :=
  match (splitDots s.data).mapM parseOctet with
  | some [a, b, c, d] => some (IpAddr.v4 a b c d)
  | _ => if s = "::1" then some IpAddr.v6loopback else none

/-- Modelled from the spec: `is_private` of the Python `ipaddress`
module (the IANA special-purpose IPv4 registry). -/
def ipIsPrivate : IpAddr → Bool
  | IpAddr.v4 a b c d =>
    a = 0 ∨ a = 10 ∨ a = 127 ∨ (a = 169 ∧ b = 254) ∨
    (a = 172 ∧ 16 ≤ b ∧ b ≤ 31) ∨ (a = 192 ∧ b = 0 ∧ c = 0 ∧ d ≤ 7) ∨
    (a = 192 ∧ b = 0 ∧ c = 0 ∧ (d = 170 ∨ d = 171)) ∨
    (a = 192 ∧ b = 0 ∧ c = 2) ∨ (a = 192 ∧ b = 168) ∨
    (a = 198 ∧ (b = 18 ∨ b = 19)) ∨ (a = 198 ∧ b = 51 ∧ c = 100) ∨
    (a = 203 ∧ b = 0 ∧ c = 113) ∨ 240 ≤ a
  | IpAddr.v6loopback => true

/-- Modelled from the spec: `is_loopback` of the Python `ipaddress`
module. -/
def ipIsLoopback : IpAddr → Bool
  | IpAddr.v4 a _ _ _ => a = 127
  | IpAddr.v6loopback => true

/-- `FlowRecord._is_internal_ip`: the `try/except` around
`ipaddress.ip_address(ip)` becomes a match on the parser's `Option`;
the `except` arm returns `False`. -/
def _is_internal_ip (ip : String) : Bool :=
  match ip_address ip with
  | some ipObj => ipIsPrivate ipObj || ipIsLoopback ipObj
  | none => false

/-! ## Data model -/

/-- The `FlowRecord` dataclass, including the fields derived in
`__post_init__`. -/
structure FlowRecord where
  timestamp : ℚ
  source_ip : String
  dest_ip : String
  source_port : Int
  dest_port : Int
  protocol : String
  action : String
  bytes_sent : Int
  packets_sent : Int
  duration : ℚ
  is_internal_src : Bool
  is_internal_dst : Bool
  flow_key : String
deriving DecidableEq, Repr

/-- `FlowRecord(...)` construction followed by `__post_init__`: the
derived fields are pure functions of the stored addresses and ports. -/
def mkFlowRecord (timestamp : ℚ) (source_ip dest_ip : String)
    (source_port dest_port : Int) (protocol action : String)
    (bytes_sent packets_sent : Int) (duration : ℚ) : FlowRecord :=
  { timestamp := timestamp, source_ip := source_ip, dest_ip := dest_ip,
    source_port := source_port, dest_port := dest_port,
    protocol := protocol, action := action,
    bytes_sent := bytes_sent, packets_sent := packets_sent,
    duration := duration,
    is_internal_src := _is_internal_ip source_ip,
    is_internal_dst := _is_internal_ip dest_ip,
    flow_key := source_ip ++ ":" ++ toString source_port ++ "->" ++
                dest_ip ++ ":" ++ toString dest_port }

/-- The `BeaconCandidate` dataclass. -/
structure BeaconCandidate where
  source_ip : String
  dest_ip : String
  dest_port : Int
  connection_count : Nat
  total_bytes : Int
  avg_bytes_per_connection : ℚ
  time_intervals : List ℚ
  avg_interval : ℚ
  interval_variance : ℚ
  consistency_score : ℚ
  first_seen : ℚ
  last_seen : ℚ
  duration_hours : ℚ
  confidence : ℚ
  severity : String
deriving DecidableEq, Repr

/-- The `LongConnection` dataclass. -/
structure LongConnection where
  source_ip : String
  dest_ip : String
  dest_port : Int
  total_duration : ℚ
  total_bytes : Int
  total_packets : Int
  start_time : ℚ
  end_time : ℚ
  avg_bytes_per_second : ℚ
  confidence : ℚ
  severity : String
deriving DecidableEq, Repr

/-- The `DataExfiltrationEvent` dataclass. -/
structure DataExfiltrationEvent where
  source_ip : String
  dest_ip : String
  dest_port : Int
  total_bytes_out : Int
  total_bytes_in : Int
  exfil_ratio : ℚ
  connection_count : Nat
  unique_dest_count : Nat
  time_window : ℚ
  bytes_per_hour : ℚ
  confidence : ℚ
  severity : String
deriving DecidableEq, Repr

/-- The port-scan event dict built in `_detect_port_scanning`. -/
structure PortScanEvent where
  source_ip : String
  dest_ip : String
  ports_scanned : Nat
  suspicious_count : Nat
  confidence : ℚ
  severity : String
  detail_ports : List Int
  detail_susp_fraction : ℚ
deriving DecidableEq, Repr

/-- The DNS-tunneling event dict built in `_detect_suspicious_dns`. -/
structure DnsEvent where
  source_ip : String
  query_count : Nat
  query_rate_per_hour : ℚ
  time_span_hours : ℚ
  confidence : ℚ
  severity : String
  detail_avg_bytes_per_query : ℚ
deriving DecidableEq, Repr

/-! ## Flow normalizer (`_parse_flow_records`)

Raw records are the key-value maps handed over by the external query
collaborator; only the fields the parser reads are represented.  The
timestamp value can be an `int`, a `str`, or some other object
(`TimeVal.other`); an absent `Time`/`Datetime` key defaults to the empty
string, i.e. `TimeVal.str ""`.  `datetime.fromisoformat` is an external
standard-library routine and is a parameter `iso` of the embedding
(`none` = it raises); `datetime.utcnow()` is the explicit `now`
parameter. -/

/-- The dynamic type of the raw `Time` field. -/
inductive TimeVal
  | int (n : Int)
  | str (s : String)
  | other
deriving DecidableEq, Repr

/-- A raw flow record as returned by the query collaborator. -/
structure RawFlow where
  time : TimeVal
  source_ip : String
  dest_ip : String
  source_port : Int
  dest_port : Int
  action : Option String
  start_time : Option String
  end_time : Option String
deriving Repr

/-- The body of the `for flow in flows` loop of `_parse_flow_records`:
`none` means the record contributes nothing (either the per-record
`except ... continue` fired, or the `if source_ip and dest_ip` guard
failed). -/
def parseOneFlow (iso : String → Option ℚ) (now : ℚ) (f : RawFlow) :
    Option FlowRecord :=
  let tsRes : Option ℚ :=
    match f.time with
    | TimeVal.int n =>
      if n ≠ 0 then some (if n > 10 ^ 12 then (n : ℚ) / 1000 else (n : ℚ))
      else some now
    | TimeVal.str s =>
      if s ≠ "" then
        match iso (replaceZ s) with
        | some t => some t
        | none => none
      else some now
    | TimeVal.other => some now
  match tsRes with
  | none => none
  | some timestamp =>
    let duration : ℚ :=
      match f.start_time, f.end_time with
      | some st, some et =>
        if st ≠ "" ∧ et ≠ "" then
          match iso (replaceZ st), iso (replaceZ et) with
          | some a, some b => b - a
          | _, _ => 0
        else 0
      | _, _ => 0
    if f.source_ip ≠ "" ∧ f.dest_ip ≠ "" then
      some (mkFlowRecord timestamp f.source_ip f.dest_ip f.source_port
        f.dest_port "TCP" (f.action.getD "ACCEPT") 1024 1 duration)
    else none

/-- `VCNFlowAnalyzer._parse_flow_records`. -/
def parse_flow_records (iso : String → Option ℚ) (now : ℚ)
    (flows : List RawFlow) : List FlowRecord :=
  flows.filterMap (parseOneFlow iso now)

/-! ## Thresholds and port classification (`VCNFlowAnalyzer.__init__`) -/

def BEACON_MIN_CONNECTIONS : Nat := 10
def LONG_CONN_MIN_DURATION : ℚ := 3600
def LONG_CONN_MIN_BYTES : Int := 1024 * 1024
def EXFIL_MIN_BYTES : Int := 100 * 1024 * 1024
def EXFIL_MIN_RATE : ℚ := 10

/-- `self.COMMON_PORTS`. -/
def COMMON_PORTS : List Int := [80, 443, 53, 22, 21, 25, 110, 143, 993, 995]

/-- Membership in `self.SUSPICIOUS_PORTS = set(range(1024, 65536)) -
self.COMMON_PORTS`. -/
def isSuspiciousPort (p : Int) : Bool :=
  decide (1024 ≤ p) && decide (p < 65536) && !(COMMON_PORTS.contains p)

/-! ## Confidence and severity policy -/

/-- The `port_score` expression of `_calculate_beacon_confidence`
(line `port_score = 0.8 if dest_port in self.SUSPICIOUS_PORTS else 0.3`). -/
def beaconPortScore (p : Int) : ℚ :=
  if isSuspiciousPort p then 0.8 else 0.3

/-- `VCNFlowAnalyzer._calculate_beacon_confidence`. -/
def calculate_beacon_confidence (connection_count : Nat)
    (consistency_score : ℚ) (avg_interval : ℚ) (dest_port : Int) : ℚ :=
  let count_score : ℚ := min 1 ((connection_count : ℚ) / 100)
  let consistency_weight : ℚ := 0.4
  let interval_score : ℚ :=
    if 60 ≤ avg_interval ∧ avg_interval ≤ 3600 then 1
    else if (30 ≤ avg_interval ∧ avg_interval < 60) ∨
            (3600 < avg_interval ∧ avg_interval ≤ 7200) then 0.7
    else if avg_interval < 30 then 0.3
    else 0.1
  let port_score := beaconPortScore dest_port
  let confidence := count_score * 0.3 + consistency_score * consistency_weight +
    interval_score * 0.2 + port_score * 0.1
  min 1 confidence

/-- `VCNFlowAnalyzer._determine_beacon_severity`. -/
def determine_beacon_severity (confidence : ℚ) (connection_count : Nat)
    (dest_port : Int) : String :=
  if confidence > 0.8 ∧ connection_count > 50 then "critical"
  else if confidence > 0.6 ∧ (connection_count > 25 ∨ isSuspiciousPort dest_port) then "high"
  else if confidence > 0.4 then "medium"
  else "low"

/-- `VCNFlowAnalyzer._calculate_long_connection_confidence`. -/
def calculate_long_connection_confidence (duration : ℚ)
    (bytes_transferred : Int) (dest_port : Int) : ℚ :=
  let duration_hours := duration / 3600
  let duration_score := min 1 (duration_hours / 24)
  let bytes_score := min 1 ((bytes_transferred : ℚ) / (1024 * 1024 * 1024))
  let port_score : ℚ := if isSuspiciousPort dest_port then 0.8 else 0.4
  let confidence := duration_score * 0.5 + bytes_score * 0.3 + port_score * 0.2
  min 1 confidence

/-- `VCNFlowAnalyzer._determine_long_connection_severity`. -/
def determine_long_connection_severity (confidence : ℚ) (duration : ℚ) : String :=
  let duration_hours := duration / 3600
  if confidence > 0.8 ∧ duration_hours > 12 then "critical"
  else if confidence > 0.6 ∧ duration_hours > 6 then "high"
  else if confidence > 0.4 then "medium"
  else "low"

/-- `VCNFlowAnalyzer._calculate_exfiltration_confidence`. -/
def calculate_exfiltration_confidence (bytes_out : Int) (rate : ℚ)
    (dest_count : Nat) (bytes_per_hour : ℚ) : ℚ :=
  let bytes_score := min 1 ((bytes_out : ℚ) / (1024 * 1024 * 1024))
  let rate_score := min 1 (rate / 50)
  let dest_score := min 1 ((dest_count : ℚ) / 10)
  let hour_score := min 1 (bytes_per_hour / (100 * 1024 * 1024))
  let confidence := bytes_score * 0.3 + rate_score * 0.3 + dest_score * 0.2 +
    hour_score * 0.2
  min 1 confidence

/-- `VCNFlowAnalyzer._determine_exfiltration_severity`. -/
def determine_exfiltration_severity (confidence : ℚ) (bytes_out : Int) : String :=
  let bytes_gb := (bytes_out : ℚ) / (1024 * 1024 * 1024)
  if confidence > 0.8 ∧ bytes_gb > 5 then "critical"
  else if confidence > 0.6 ∧ bytes_gb > 1 then "high"
  else if confidence > 0.4 then "medium"
  else "low"

/-! ## Beacon detector (`_detect_beacons`) -/

/-- The grouping key `(flow.source_ip, flow.dest_ip, flow.dest_port)`. -/
def beaconKey (f : FlowRecord) : String × String × Int :=
  (f.source_ip, f.dest_ip, f.dest_port)

/-- The beacon metrics and candidate record computed inside the
per-group loop of `_detect_beacons` (the loop body's straight-line
part, before the `continue`s and the confidence threshold decide
whether it is kept). -/
def beacon_candidate_of (key : String × String × Int)
    (group_flows : List FlowRecord) : BeaconCandidate :=
  let sorted := pySort (fun a b => a.timestamp ≤ b.timestamp) group_flows
  let intervals := pairDiffs (sorted.map (fun f => f.timestamp))
  let avg_interval := pyMean intervals
  let interval_variance :=
    if intervals.length > 1 then pyVariance intervals else 0
  let consistency_score :=
    if avg_interval > 0 then 1 / (1 + interval_variance / avg_interval ^ 2)
    else 0
  let total_bytes : Int := (group_flows.map (fun f => f.bytes_sent)).sum
  let avg_bytes : ℚ :=
    if group_flows.isEmpty then 0
    else (total_bytes : ℚ) / (group_flows.length : ℚ)
  let first_seen := match sorted with | [] => 0 | f :: _ => f.timestamp
  let last_seen := match sorted.getLast? with | some f => f.timestamp | none => 0
  let duration_hours := (last_seen - first_seen) / 3600
  let confidence := calculate_beacon_confidence group_flows.length
    consistency_score avg_interval key.2.2
  let severity := determine_beacon_severity confidence group_flows.length key.2.2
  { source_ip := key.1, dest_ip := key.2.1, dest_port := key.2.2,
    connection_count := group_flows.length, total_bytes := total_bytes,
    avg_bytes_per_connection := avg_bytes, time_intervals := intervals,
    avg_interval := avg_interval, interval_variance := interval_variance,
    consistency_score := consistency_score, first_seen := first_seen,
    last_seen := last_seen, duration_hours := duration_hours,
    confidence := confidence, severity := severity }

/-- Body of the per-group loop of `_detect_beacons`: `none` when the
group is skipped by a `continue` or fails the confidence threshold. -/
def mk_beacon_candidate (key : String × String × Int)
    (group_flows : List FlowRecord) : Option BeaconCandidate :=
  if group_flows.length < BEACON_MIN_CONNECTIONS then none
  else if (pairDiffs ((pySort (fun a b => a.timestamp ≤ b.timestamp)
      group_flows).map (fun f => f.timestamp))).isEmpty then none
  else if (beacon_candidate_of key group_flows).confidence > 0.3 then
    some (beacon_candidate_of key group_flows)
  else none

/-- `VCNFlowAnalyzer._detect_beacons`. -/
def detect_beacons (flows : List FlowRecord) : List BeaconCandidate :=
  let accepted := flows.filter (fun f => pyUpper f.action == "ACCEPT")
  let flow_groups := groupByKey beaconKey accepted
  let beacons := flow_groups.filterMap (fun kg => mk_beacon_candidate kg.1 kg.2)
  pySort (fun a b => b.confidence ≤ a.confidence) beacons

/-! ## Long-connection detector (`_detect_long_connections`) -/

/-- Body of the per-group loop of `_detect_long_connections`. -/
def mk_long_connection (key : String × String × Int)
    (group_flows : List FlowRecord) : Option LongConnection :=
  let total_duration := (group_flows.map (fun f => f.duration)).sum
  let total_bytes : Int := (group_flows.map (fun f => f.bytes_sent)).sum
  let total_packets : Int := (group_flows.map (fun f => f.packets_sent)).sum
  if total_duration < LONG_CONN_MIN_DURATION then none
  else
    let start_time := listMinQ (group_flows.map (fun f => f.timestamp))
    let end_time := listMaxQ (group_flows.map (fun f => f.timestamp))
    let avg_bytes_per_second : ℚ :=
      if total_duration > 0 then (total_bytes : ℚ) / total_duration else 0
    let confidence := calculate_long_connection_confidence total_duration
      total_bytes key.2.2
    let severity := determine_long_connection_severity confidence total_duration
    if confidence > 0.4 then
      some { source_ip := key.1, dest_ip := key.2.1, dest_port := key.2.2,
             total_duration := total_duration, total_bytes := total_bytes,
             total_packets := total_packets, start_time := start_time,
             end_time := end_time, avg_bytes_per_second := avg_bytes_per_second,
             confidence := confidence, severity := severity }
    else none

/-- `VCNFlowAnalyzer._detect_long_connections`. -/
def detect_long_connections (flows : List FlowRecord) : List LongConnection :=
  let with_duration := flows.filter (fun f => f.duration > 0)
  let connection_groups := groupByKey beaconKey with_duration
  let long_connections :=
    connection_groups.filterMap (fun kg => mk_long_connection kg.1 kg.2)
  pySort (fun a b => b.confidence ≤ a.confidence) long_connections

/-! ## Data-exfiltration detector (`_detect_data_exfiltration`) -/

/-- `inbound_flows.get(a, {}).get(b, [])` on the nested grouping. -/
def lookup2 (m : List (String × List (String × List FlowRecord)))
    (a b : String) : List FlowRecord :=
  match m.find? (fun p => p.1 == a) with
  | some (_, inner) =>
    match inner.find? (fun p => p.1 == b) with
    | some (_, l) => l
    | none => []
  | none => []

/-- The exfiltration aggregates and event record computed inside the
per-source loop of `_detect_data_exfiltration` (the loop body's
straight-line part; the two `continue` filters and the confidence
threshold in `mk_exfil_event` decide whether it is kept). -/
def exfil_event_of (inbound : List (String × List (String × List FlowRecord)))
    (src_ip : String) (destinations : List (String × List FlowRecord)) :
    DataExfiltrationEvent :=
  let total_outbound_bytes :=
    (destinations.map (fun d => ((d.2.map (fun f => f.bytes_sent)).sum))).sum
  let total_inbound_bytes :=
    (destinations.map (fun d =>
      (((lookup2 inbound src_ip d.1).map (fun f => f.bytes_sent)).sum))).sum
  let connection_count := (destinations.map (fun d => d.2.length)).sum
  let unique_destinations := destinations.length
  let all_flows := (destinations.map (fun d => d.2)).flatten
  let earliest_time : Option ℚ :=
    all_flows.foldl (fun e f =>
      match e with
      | none => some f.timestamp
      | some t => if f.timestamp < t then some f.timestamp else some t) none
  let latest_time : Option ℚ :=
    all_flows.foldl (fun l f =>
      match l with
      | none => some f.timestamp
      | some t => if f.timestamp > t then some f.timestamp else some t) none
  let exfil_ratio : ℚ :=
    (total_outbound_bytes : ℚ) / ((max total_inbound_bytes 1 : Int) : ℚ)
  let time_window : ℚ :=
    match earliest_time, latest_time with
    | some e, some l => l - e
    | _, _ => 0
  let bytes_per_hour := (total_outbound_bytes : ℚ) / max (time_window / 3600) 0.1
  let confidence := calculate_exfiltration_confidence total_outbound_bytes
    exfil_ratio unique_destinations bytes_per_hour
  let severity := determine_exfiltration_severity confidence total_outbound_bytes
  let primary :=
    argmaxByQ (fun d => ((d.2.map (fun f => f.bytes_sent)).sum : ℚ)) destinations
  let primary_dest := match primary with | some d => d.1 | none => ""
  let primary_flows :=
    match destinations.find? (fun d => d.1 == primary_dest) with
    | some d => d.2
    | none => []
  let primary_port :=
    match argmaxByQ (fun f => (f.bytes_sent : ℚ)) primary_flows with
    | some f => f.dest_port
    | none => 0
  { source_ip := src_ip, dest_ip := primary_dest, dest_port := primary_port,
    total_bytes_out := total_outbound_bytes,
    total_bytes_in := total_inbound_bytes,
    exfil_ratio := exfil_ratio, connection_count := connection_count,
    unique_dest_count := unique_destinations,
    time_window := time_window, bytes_per_hour := bytes_per_hour,
    confidence := confidence, severity := severity }

/-- Body of the per-source loop of `_detect_data_exfiltration`: the two
`continue` filters (outbound volume, then ratio) and the confidence
threshold. -/
def mk_exfil_event (inbound : List (String × List (String × List FlowRecord)))
    (src_ip : String) (destinations : List (String × List FlowRecord)) :
    Option DataExfiltrationEvent :=
  if (destinations.map (fun d => ((d.2.map (fun f => f.bytes_sent)).sum))).sum <
      EXFIL_MIN_BYTES then none
  else if (exfil_event_of inbound src_ip destinations).exfil_ratio <
      EXFIL_MIN_RATE then none
  else if (exfil_event_of inbound src_ip destinations).confidence > 0.5 then
    some (exfil_event_of inbound src_ip destinations)
  else none

/-- `VCNFlowAnalyzer._detect_data_exfiltration`. -/
def detect_data_exfiltration (flows : List FlowRecord) :
    List DataExfiltrationEvent :=
  let out_flows := flows.filter (fun f => f.is_internal_src && !f.is_internal_dst)
  let in_flows := flows.filter (fun f => !f.is_internal_src && f.is_internal_dst)
  let outbound_flows :=
    (groupByKey (fun f => f.source_ip) out_flows).map
      (fun p => (p.1, groupByKey (fun f => f.dest_ip) p.2))
  let inbound_flows :=
    (groupByKey (fun f => f.dest_ip) in_flows).map
      (fun p => (p.1, groupByKey (fun f => f.source_ip) p.2))
  let events :=
    outbound_flows.filterMap (fun sd => mk_exfil_event inbound_flows sd.1 sd.2)
  pySort (fun a b => b.confidence ≤ a.confidence) events

/-! ## Port-scan detector (`_detect_port_scanning`) -/

/-- Body of the per-(source, target) loop of `_detect_port_scanning`;
`ports` is the set of distinct rejected destination ports. -/
def mk_port_scan (src_ip dst_ip : String) (ports : List Int) :
    Option PortScanEvent :=
  if ports.length ≥ 10 then
    let suspicious := ports.filter isSuspiciousPort
    let susp_fraction : ℚ := (suspicious.length : ℚ) / (ports.length : ℚ)
    let confidence := min 0.9 ((ports.length : ℚ) / 100 + susp_fraction * 0.5)
    let severity :=
      if confidence > 0.7 then "high"
      else if confidence > 0.5 then "medium"
      else "low"
    some { source_ip := src_ip, dest_ip := dst_ip,
           ports_scanned := ports.length, suspicious_count := suspicious.length,
           confidence := confidence, severity := severity,
           detail_ports := pySort (fun a b => a ≤ b) ports,
           detail_susp_fraction := susp_fraction }
  else none

/-- `VCNFlowAnalyzer._detect_port_scanning`. -/
def detect_port_scanning (flows : List FlowRecord) : List PortScanEvent :=
  let rejected := flows.filter
    (fun f => pyUpper f.action == "REJECT" || pyUpper f.action == "DROP")
  let scan_candidates :=
    (groupByKey (fun f => f.source_ip) rejected).map
      (fun p => (p.1, groupByKey (fun f => f.dest_ip) p.2))
  let port_scans := scan_candidates.flatMap (fun st =>
    st.2.filterMap (fun dt =>
      mk_port_scan st.1 dt.1 (dedupFirst (dt.2.map (fun f => f.dest_port)))))
  pySort (fun a b => b.confidence ≤ a.confidence) port_scans

/-! ## DNS-tunneling detector (`_detect_suspicious_dns`) -/

/-- Body of the per-source loop of `_detect_suspicious_dns`. -/
def mk_dns_event (src_ip : String) (flows_list : List FlowRecord) :
    Option DnsEvent :=
  if flows_list.length < 50 then none
  else
    let time_span := listMaxQ (flows_list.map (fun f => f.timestamp)) -
      listMinQ (flows_list.map (fun f => f.timestamp))
    let query_rate := (flows_list.length : ℚ) / max (time_span / 3600) 0.1
    if query_rate > 1000 then
      let confidence := min 0.9 (query_rate / 5000)
      let severity := if confidence > 0.7 then "high" else "medium"
      some { source_ip := src_ip, query_count := flows_list.length,
             query_rate_per_hour := query_rate,
             time_span_hours := time_span / 3600,
             confidence := confidence, severity := severity,
             detail_avg_bytes_per_query :=
               ((flows_list.map (fun f => f.bytes_sent)).sum : ℚ) /
                 (flows_list.length : ℚ) }
    else none

/-- `VCNFlowAnalyzer._detect_suspicious_dns`. -/
def detect_suspicious_dns (flows : List FlowRecord) : List DnsEvent :=
  let dns_flows := flows.filter (fun f => f.dest_port == 53)
  let dns_by_source := groupByKey (fun f => f.source_ip) dns_flows
  let suspicious_dns := dns_by_source.filterMap (fun kg => mk_dns_event kg.1 kg.2)
  pySort (fun a b => b.confidence ≤ a.confidence) suspicious_dns

/-! ## Threat aggregator (`_calculate_threat_stats`, `_compile_threat_summary`) -/

/-- The `stats` dict of a successful report. -/
structure Stats where
  total_threats : Nat
  critical_threats : Nat
  high_threats : Nat
  medium_threats : Nat
  low_threats : Nat
  beacons_detected : Nat
  long_connections : Nat
  dns_tunneling : Nat
  data_exfiltration : Nat
  port_scans : Nat
  analysis_time_range : String
deriving DecidableEq, Repr

/-- `VCNFlowAnalyzer._calculate_threat_stats`. -/
def calculate_threat_stats (beacons : List BeaconCandidate)
    (long_connections : List LongConnection)
    (exfils : List DataExfiltrationEvent) (port_scans : List PortScanEvent)
    (dns_events : List DnsEvent) : Stats :=
  let all_threats : List (String × String) :=
    beacons.map (fun b => ("beacon", b.severity)) ++
    long_connections.map (fun c => ("long_connection", c.severity)) ++
    exfils.map (fun e => ("data_exfiltration", e.severity)) ++
    port_scans.map (fun s => ("port_scan", s.severity)) ++
    dns_events.map (fun d => ("dns_tunneling", d.severity))
  let sevs := all_threats.map (fun t => t.2)
  { total_threats := all_threats.length,
    critical_threats := (sevs.filter (fun s => s == "critical")).length,
    high_threats := (sevs.filter (fun s => s == "high")).length,
    medium_threats := (sevs.filter (fun s => s == "medium")).length,
    low_threats := (sevs.filter (fun s => s == "low")).length,
    beacons_detected := beacons.length,
    long_connections := long_connections.length,
    dns_tunneling := dns_events.length,
    data_exfiltration := exfils.length,
    port_scans := port_scans.length,
    analysis_time_range := "Last 1440 minutes" }

/-- The type-specific `details` map of a `Threat`. -/
inductive ThreatDetails
  | beacon (avg_interval_seconds consistency_score avg_bytes_per_connection : ℚ)
  | longConn (total_duration_seconds : ℚ) (total_packets : Int)
      (avg_bytes_per_second : ℚ)
  | exfil (bytes_in : Int) (exfil_quotient : ℚ) (unique_destinations : Nat)
      (bytes_per_hour : ℚ)
  | scan (ports : List Int) (susp_fraction : ℚ)
  | dns (avg_bytes_per_query : ℚ)
deriving DecidableEq, Repr

/-- The uniform `Threat` dict produced by `_compile_threat_summary`.
`isoformat()` on instants is represented by the instant itself. -/
structure Threat where
  id : String
  type : String
  severity : String
  score : Int
  source_ip : String
  destination_ip : String
  destination_port : Int
  first_seen : ℚ
  last_seen : ℚ
  connection_count : Nat
  bytes_transferred : Int
  duration_hours : ℚ
  confidence : Int
  details : ThreatDetails
deriving DecidableEq, Repr

/-- The `int(confidence * 100)` expression used for every `score` and
`confidence` field of a compiled `Threat` (Python `int()` truncation). -/
def threatScore (confidence : ℚ) : Int := pyInt (confidence * 100)

/-- The beacon branch of `_compile_threat_summary`. -/
def beaconThreat (b : BeaconCandidate) : Threat :=
  { id := "beacon_" ++ b.source_ip ++ "_" ++ b.dest_ip ++ "_" ++
          toString b.dest_port,
    type := "beacon", severity := b.severity, score := threatScore b.confidence,
    source_ip := b.source_ip, destination_ip := b.dest_ip,
    destination_port := b.dest_port, first_seen := b.first_seen,
    last_seen := b.last_seen, connection_count := b.connection_count,
    bytes_transferred := b.total_bytes, duration_hours := b.duration_hours,
    confidence := threatScore b.confidence,
    details := ThreatDetails.beacon b.avg_interval b.consistency_score
      b.avg_bytes_per_connection }

/-- The long-connection branch of `_compile_threat_summary`. -/
def longConnThreat (c : LongConnection) : Threat :=
  { id := "longconn_" ++ c.source_ip ++ "_" ++ c.dest_ip ++ "_" ++
          toString c.dest_port,
    type := "long_connection", severity := c.severity,
    score := threatScore c.confidence, source_ip := c.source_ip,
    destination_ip := c.dest_ip, destination_port := c.dest_port,
    first_seen := c.start_time, last_seen := c.end_time,
    connection_count := 1, bytes_transferred := c.total_bytes,
    duration_hours := c.total_duration / 3600,
    confidence := threatScore c.confidence,
    details := ThreatDetails.longConn c.total_duration c.total_packets
      c.avg_bytes_per_second }

/-- The data-exfiltration branch of `_compile_threat_summary`; the
`first_seen`/`last_seen` fields are `datetime.now(timezone.utc)`,
the explicit `now` parameter of the embedding. -/
def exfilThreat (now : ℚ) (e : DataExfiltrationEvent) : Threat :=
  { id := "exfil_" ++ e.source_ip ++ "_" ++ e.dest_ip,
    type := "data_exfiltration", severity := e.severity,
    score := threatScore e.confidence, source_ip := e.source_ip,
    destination_ip := e.dest_ip, destination_port := e.dest_port,
    first_seen := now, last_seen := now,
    connection_count := e.connection_count,
    bytes_transferred := e.total_bytes_out,
    duration_hours := e.time_window / 3600,
    confidence := threatScore e.confidence,
    details := ThreatDetails.exfil e.total_bytes_in e.exfil_ratio
      e.unique_dest_count e.bytes_per_hour }

/-- The port-scan branch of `_compile_threat_summary` (timestamps are
`datetime.now(timezone.utc)`). -/
def scanThreat (now : ℚ) (s : PortScanEvent) : Threat :=
  { id := "portscan_" ++ s.source_ip ++ "_" ++ s.dest_ip,
    type := "port_scan", severity := s.severity,
    score := threatScore s.confidence, source_ip := s.source_ip,
    destination_ip := s.dest_ip, destination_port := 0,
    first_seen := now, last_seen := now,
    connection_count := s.ports_scanned, bytes_transferred := 0,
    duration_hours := 0, confidence := threatScore s.confidence,
    details := ThreatDetails.scan s.detail_ports s.detail_susp_fraction }

/-- The DNS branch of `_compile_threat_summary` (timestamps are
`datetime.now(timezone.utc)`). -/
def dnsThreat (now : ℚ) (d : DnsEvent) : Threat :=
  { id := "dns_" ++ d.source_ip,
    type := "dns_tunneling", severity := d.severity,
    score := threatScore d.confidence, source_ip := d.source_ip,
    destination_ip := "DNS_SERVER", destination_port := 53,
    first_seen := now, last_seen := now,
    connection_count := d.query_count, bytes_transferred := 0,
    duration_hours := d.time_span_hours, confidence := threatScore d.confidence,
    details := ThreatDetails.dns d.detail_avg_bytes_per_query }

/-- `VCNFlowAnalyzer._compile_threat_summary`. -/
def compile_threat_summary (beacons : List BeaconCandidate)
    (long_connections : List LongConnection)
    (exfils : List DataExfiltrationEvent) (port_scans : List PortScanEvent)
    (dns_events : List DnsEvent) (now : ℚ) : List Threat :=
  let threats :=
    beacons.map beaconThreat ++ long_connections.map longConnThreat ++
    exfils.map (exfilThreat now) ++ port_scans.map (scanThreat now) ++
    dns_events.map (dnsThreat now)
  pySort (fun a b => b.score ≤ a.score) threats

/-! ## Engine facade (`analyze_vcn_flows`)

The Python method wraps the whole run in one `try/except Exception`;
a raised exception anywhere inside — in particular inside a detector —
reaches that single handler, which returns
`{"success": False, "error": str(e)}`.  The embedding makes the five
detector calls fallible parameters (`Except String _`; `Except.error`
is a raised exception), sequenced exactly as the source sequences the
calls. -/

/-- The `analysis_details` dict of a successful report. -/
structure AnalysisDetails where
  beacons : Nat
  long_connections : Nat
  data_exfiltration : Nat
  port_scans : Nat
  suspicious_dns : Nat
  total_flows_analyzed : Nat
  time_period_minutes : Int
deriving DecidableEq, Repr

/-- The two shapes of dict `analyze_vcn_flows` returns: the
`{"success": False, "error": ...}` dict, or the full success dict. -/
inductive Report
  | failure (error : String)
  | success (stats : Stats) (threats : List Threat) (processing_info : String)
      (analysis_details : AnalysisDetails)
deriving DecidableEq, Repr

/-- `VCNFlowAnalyzer.analyze_vcn_flows` with the five detector calls
abstracted as fallible functions: `Except.error e` models the detector
raising an exception with message `e`, which propagates to the method's
single `except Exception` handler. -/
def analyze_vcn_flows_with
    (db : List FlowRecord → Except String (List BeaconCandidate))
    (dl : List FlowRecord → Except String (List LongConnection))
    (de : List FlowRecord → Except String (List DataExfiltrationEvent))
    (dp : List FlowRecord → Except String (List PortScanEvent))
    (dd : List FlowRecord → Except String (List DnsEvent))
    (iso : String → Option ℚ) (now : ℚ) (time_period_minutes : Int)
    (flows : List RawFlow) : Report :=
  if flows.isEmpty then Report.failure "No VCN flow data found"
  else
    let processing_info := "Processing " ++ toString flows.length ++ " flow records"
    let flow_records := parse_flow_records iso now flows
    match db flow_records with
    | Except.error e => Report.failure e
    | Except.ok beacons =>
      match dl flow_records with
      | Except.error e => Report.failure e
      | Except.ok long_connections =>
        match de flow_records with
        | Except.error e => Report.failure e
        | Except.ok exfils =>
          match dp flow_records with
          | Except.error e => Report.failure e
          | Except.ok port_scans =>
            match dd flow_records with
            | Except.error e => Report.failure e
            | Except.ok dns_events =>
              let stats := calculate_threat_stats beacons long_connections
                exfils port_scans dns_events
              let all_threats := compile_threat_summary beacons
                long_connections exfils port_scans dns_events now
              Report.success stats all_threats processing_info
                { beacons := beacons.length,
                  long_connections := long_connections.length,
                  data_exfiltration := exfils.length,
                  port_scans := port_scans.length,
                  suspicious_dns := dns_events.length,
                  total_flows_analyzed := flow_records.length,
                  time_period_minutes := time_period_minutes }

/-- `VCNFlowAnalyzer.analyze_vcn_flows` with the actual five detectors
(none of which raises in the embedding, all being total functions). -/
def analyze_vcn_flows (iso : String → Option ℚ) (now : ℚ)
    (time_period_minutes : Int) (flows : List RawFlow) : Report :=
  analyze_vcn_flows_with
    (fun r => Except.ok (detect_beacons r))
    (fun r => Except.ok (detect_long_connections r))
    (fun r => Except.ok (detect_data_exfiltration r))
    (fun r => Except.ok (detect_port_scanning r))
    (fun r => Except.ok (detect_suspicious_dns r))
    iso now time_period_minutes flows

/-! ## Specification-side definitions and concrete instances used in the
theorems below -/

/-- The interval score exactly as the specification words it: 1.0 for a
mean interval in [60 s, 3600 s], 0.7 for [30, 60) ∪ (3600, 7200], 0.3
below 30 s, and 0.1 otherwise. -/
def intervalScoreSpec (avg : ℚ) : ℚ :=
  if 60 ≤ avg ∧ avg ≤ 3600 then 1
  else if (30 ≤ avg ∧ avg < 60) ∨ (3600 < avg ∧ avg ≤ 7200) then 0.7
  else if avg < 30 then 0.3
  else 0.1

/-- A raw record's timestamp parse path that never consults
`datetime.utcnow()`: a truthy int or a truthy string. -/
def time_no_fallback (f : RawFlow) : Bool :=
  match f.time with
  | TimeVal.int n => n != 0
  | TimeVal.str s => s != ""
  | TimeVal.other => false

/-- Modelled from the spec: `datetime.fromisoformat` of the Python
standard library (an external collaborator), instantiated for concrete
runs by a finite table that is faithful on the strings occurring in
them; it raises (`none`) on any string that is not ISO-8601. -/
def isoModel (s : String) : Option ℚ :=
  if s = "2024-01-01T00:00:00+00:00" then some 1704067200 else none

/-- A raw record with both IPs present and a timestamp string that is
not ISO-8601. -/
def rawBadTime : RawFlow :=
  { time := TimeVal.str "not-a-timestamp", source_ip := "10.0.0.5",
    dest_ip := "8.8.8.8", source_port := 40000, dest_port := 443,
    action := some "ACCEPT", start_time := none, end_time := none }

/-- A raw record whose `Time` value is neither an int nor a string. -/
def rawNoTime : RawFlow :=
  { time := TimeVal.other, source_ip := "10.0.0.5", dest_ip := "8.8.8.8",
    source_port := 40000, dest_port := 443, action := some "ACCEPT",
    start_time := none, end_time := none }

/-- A single well-formed accepted raw flow. -/
def rawAccept : RawFlow :=
  { time := TimeVal.int 100, source_ip := "10.0.0.5", dest_ip := "8.8.8.8",
    source_port := 40000, dest_port := 443, action := some "ACCEPT",
    start_time := none, end_time := none }

/-- Ten rejected raw flows from one public source to one public target
touching ten distinct destination ports: a minimal port scan. -/
def scanRaws : List RawFlow :=
  (List.range 10).map (fun i =>
    { time := TimeVal.int (100 + (i : Int)), source_ip := "1.1.1.1",
      dest_ip := "2.2.2.2", source_port := 40000,
      dest_port := (1 + (i : Int)), action := some "REJECT",
      start_time := none, end_time := none })

/-- A beacon candidate with confidence 0.999. -/
def beacon999 : BeaconCandidate :=
  { source_ip := "10.0.0.5", dest_ip := "8.8.8.8", dest_port := 4444,
    connection_count := 20, total_bytes := 20480,
    avg_bytes_per_connection := 1024, time_intervals := [],
    avg_interval := 300, interval_variance := 0, consistency_score := 1,
    first_seen := 0, last_seen := 6000, duration_hours := 5 / 3,
    confidence := 999 / 1000, severity := "high" }

/-- A beacon candidate standing for a surviving result of a detector
that ran before a failing one. -/
def beaconSample : BeaconCandidate :=
  { source_ip := "192.168.1.9", dest_ip := "8.8.4.4", dest_port := 8080,
    connection_count := 30, total_bytes := 30720,
    avg_bytes_per_connection := 1024, time_intervals := [],
    avg_interval := 120, interval_variance := 0, consistency_score := 1,
    first_seen := 0, last_seen := 3480, duration_hours := 29 / 30,
    confidence := 9 / 10, severity := "high" }

/-- A beacon detector that raises (`Except.error` models the exception). -/
def failingBeaconDetector :
    List FlowRecord → Except String (List BeaconCandidate) :=
  fun _ => Except.error "boom"

/-- A beacon detector that succeeds with one candidate. -/
def constBeaconDetector :
    List FlowRecord → Except String (List BeaconCandidate) :=
  fun _ => Except.ok [beaconSample]

/-- A DNS detector that raises. -/
def failingDnsDetector : List FlowRecord → Except String (List DnsEvent) :=
  fun _ => Except.error "boom"

/-- The `first_seen` fields of a report's threat list. -/
def reportFirstSeens : Report → List ℚ
  | Report.failure _ => []
  | Report.success _ threats _ _ => threats.map (fun t => t.first_seen)

/-- The `stats.total_threats` field of a successful report. -/
def reportTotalThreats : Report → Option Nat
  | Report.failure _ => none
  | Report.success stats _ _ _ => some stats.total_threats

/-- The timestamps of a list of parsed flow records. -/
def recTimestamps (l : List FlowRecord) : List ℚ :=
  l.map (fun r => r.timestamp)

/-- One ACCEPT flow record toward 10.0.0.5 → 8.8.8.8 : 4444. -/
def c6Flow : FlowRecord :=
  mkFlowRecord 0 "10.0.0.5" "8.8.8.8" 40000 4444 "TCP" "ACCEPT" 1024 1 0

/-- Holds when a beacon candidate is not about the tuple
(10.0.0.5, 8.8.8.8, 4444). -/
def c6BeaconOK (b : BeaconCandidate) : Bool :=
  !(b.source_ip == "10.0.0.5" && b.dest_ip == "8.8.8.8" && b.dest_port == 4444)

/-- Three outbound flow records from internal 10.0.0.5 totalling 3072
bytes, far below the 100 MiB exfiltration floor. -/
def c8Flows : List FlowRecord :=
  [mkFlowRecord 0 "10.0.0.5" "8.8.8.8" 40000 443 "TCP" "ACCEPT" 1024 1 0,
   mkFlowRecord 60 "10.0.0.5" "8.8.8.8" 40001 443 "TCP" "ACCEPT" 1024 1 0,
   mkFlowRecord 120 "10.0.0.5" "1.1.1.1" 40002 443 "TCP" "ACCEPT" 1024 1 0]

/-- Holds when an exfiltration event is not about source 10.0.0.5. -/
def c8EventOK (e : DataExfiltrationEvent) : Bool := !(e.source_ip == "10.0.0.5")

/-! ## Helper lemmas -/

theorem mem_insertLe (le : α → α → Bool) (a x : α) (l : List α) :
    x ∈ insertLe le a l ↔ x = a ∨ x ∈ l := by
  induction l with
  | nil => simp [insertLe]
  | cons b bs ih =>
    simp only [insertLe]
    split
    · simp [or_comm, or_assoc, or_left_comm]
    · simp only [List.mem_cons, ih]
      tauto

theorem mem_pySort (le : α → α → Bool) (x : α) (l : List α) :
    x ∈ pySort le l ↔ x ∈ l := by
  induction l with
  | nil => simp [pySort]
  | cons a t ih => simp [pySort, mem_insertLe, ih]

theorem dedupFirstFuel_eq [DecidableEq κ] :
    ∀ (m n : Nat) (l : List κ), l.length ≤ m → l.length ≤ n →
      dedupFirstFuel m l = dedupFirstFuel n l := by
  intro m
  induction m with
  | zero =>
    intro n l hm _
    obtain rfl := List.length_eq_zero.mp (Nat.le_zero.mp hm)
    cases n <;> rfl
  | succ m ih =>
    intro n l hm hn
    cases l with
    | nil => cases n <;> rfl
    | cons k ks =>
      cases n with
      | zero => exact absurd hn (by simp)
      | succ n =>
        rw [dedupFirstFuel, dedupFirstFuel]
        congr 1
        apply ih
        · exact Nat.le_trans (List.length_filter_le _ _)
            (Nat.succ_le_succ_iff.mp hm)
        · exact Nat.le_trans (List.length_filter_le _ _)
            (Nat.succ_le_succ_iff.mp hn)

theorem dedupFirst_cons [DecidableEq κ] (k : κ) (ks : List κ) :
    dedupFirst (k :: ks) = k :: dedupFirst (ks.filter (fun x => !(x == k))) := by
  unfold dedupFirst
  rw [show (k :: ks).length = ks.length + 1 from rfl, dedupFirstFuel]
  congr 1
  exact dedupFirstFuel_eq ks.length (ks.filter (fun x => !(x == k))).length _
    (List.length_filter_le _ _) (Nat.le_refl _)

theorem mem_dedupFirstFuel [DecidableEq κ] :
    ∀ (fuel : Nat) (l : List κ) (k : κ), k ∈ dedupFirstFuel fuel l → k ∈ l := by
  intro fuel
  induction fuel with
  | zero =>
    intro l k h
    cases l <;> simp [dedupFirstFuel] at h
  | succ n ih =>
    intro l k h
    cases l with
    | nil => simp [dedupFirstFuel] at h
    | cons a ks =>
      rw [dedupFirstFuel] at h
      rcases List.mem_cons.mp h with h | h
      · exact h ▸ List.mem_cons_self _ _
      · exact List.mem_cons_of_mem _ (List.mem_of_mem_filter (ih _ k h))

theorem mem_dedupFirst [DecidableEq κ] (l : List κ) (k : κ)
    (h : k ∈ dedupFirst l) : k ∈ l :=
  mem_dedupFirstFuel l.length l k h

theorem mem_groupByKey [DecidableEq κ] (key : α → κ) (l : List α)
    (k : κ) (g : List α) (h : (k, g) ∈ groupByKey key l) :
    g = l.filter (fun a => key a == k) := by
  rw [groupByKey, List.mem_map] at h
  obtain ⟨k', _, hk'⟩ := h
  obtain ⟨rfl, rfl⟩ := Prod.mk.injEq .. ▸ hk'
  rfl

theorem sum_filter_partition (p : α → Bool) (w : α → Int) (l : List α) :
    ((l.filter p).map w).sum + ((l.filter (fun a => !(p a))).map w).sum =
      (l.map w).sum := by
  induction l with
  | nil => simp
  | cons a t ih =>
    rcases Bool.eq_false_or_eq_true (p a) with h | h <;>
      simp only [List.filter_cons, h, Bool.not_true, Bool.not_false,
        if_true, Bool.false_eq_true, Bool.true_eq_false, if_false,
        List.map_cons, List.sum_cons, ite_true, ite_false] <;>
      omega

theorem map_pair_snd (f : κ → List α) (g : List α → Int) (ks : List κ) :
    (ks.map (fun k => (k, f k))).map (fun p => g p.2) =
      ks.map (fun k => g (f k)) := by
  induction ks with
  | nil => rfl
  | cons k ks ih => simp only [List.map_cons, ih]

theorem groupByKey_sum_aux [DecidableEq κ] (key : α → κ) (w : α → Int) :
    ∀ (n : Nat) (l : List α), l.length ≤ n →
      (((groupByKey key l).map (fun p => ((p.2.map w).sum))).sum) =
        (l.map w).sum := by
  intro n
  induction n with
  | zero =>
    intro l hl
    obtain rfl := List.length_eq_zero.mp (Nat.le_zero.mp hl)
    simp [groupByKey, dedupFirst, dedupFirstFuel]
  | succ n ih =>
    intro l hl
    cases l with
    | nil => simp [groupByKey, dedupFirst, dedupFirstFuel]
    | cons a t =>
      have hfm : (t.map key).filter (fun x => !(x == key a)) =
          (t.filter (fun b => !(key b == key a))).map key := by
        rw [List.filter_map]
        rfl
      have hka : (key a == key a) = true := by simp
      have hgoal : groupByKey key (a :: t) =
          (key a :: dedupFirst ((t.filter (fun b => !(key b == key a))).map key)).map
            (fun k => (k, (a :: t).filter (fun x => key x == k))) := by
        rw [groupByKey]
        congr 1
        rw [show (a :: t).map key = key a :: t.map key from rfl]
        rw [dedupFirst_cons, hfm]
      rw [hgoal, map_pair_snd (fun k => (a :: t).filter (fun x => key x == k))
        (fun g => (g.map w).sum)]
      simp only [List.map_cons, List.sum_cons]
      have hfirst : (((a :: t).filter (fun x => key x == key a)).map w).sum =
          w a + ((t.filter (fun x => key x == key a)).map w).sum := by
        simp [List.filter_cons, hka]
      set t' := t.filter (fun b => !(key b == key a)) with ht'
      have hrest : ((dedupFirst (t'.map key)).map
            (fun k => (((a :: t).filter (fun x => key x == k)).map w).sum)).sum =
          ((dedupFirst (t'.map key)).map
            (fun k => ((t'.filter (fun x => key x == k)).map w).sum)).sum := by
        apply congrArg
        apply List.map_congr_left
        intro k hk
        have hk' : k ∈ t'.map key := mem_dedupFirst _ _ hk
        have hkne : (k == key a) = false := by
          rw [List.mem_map] at hk'
          obtain ⟨b, hb, rfl⟩ := hk'
          have := List.of_mem_filter hb
          simpa using this
        have hne : (key a == k) = false := by
          apply Bool.eq_false_iff.mpr
          intro hc
          have hkk : key a = k := beq_iff_eq.mp hc
          exact (Bool.eq_false_iff.mp hkne) (beq_iff_eq.mpr hkk.symm)
        have hstep : (a :: t).filter (fun x => key x == k) =
            t.filter (fun x => key x == k) := by
          simp [List.filter_cons, hne]
        rw [hstep, ht']
        rw [List.filter_filter]
        apply congrArg
        apply congrArg
        apply List.filter_congr
        intro x _
        by_cases hx : key x = k
        · have hxa : ¬ key x = key a := by
            intro hc
            exact (Bool.eq_false_iff.mp hkne)
              (beq_iff_eq.mpr (hx.symm.trans hc))
          simp [hx, hkne]
        · simp [beq_iff_eq, hx]
      rw [hfirst, hrest]
      have hlen : t'.length ≤ n := by
        have h1 : t'.length ≤ t.length := List.length_filter_le _ _
        have h2 : t.length ≤ n := by
          simpa [Nat.succ_le_succ_iff] using hl
        omega
      have hih := ih t' hlen
      rw [groupByKey, map_pair_snd (fun k => t'.filter (fun x => key x == k))
        (fun g => (g.map w).sum)] at hih
      rw [hih]
      have hpart := sum_filter_partition (fun x => key x == key a) w t
      rw [ht']
      omega

theorem groupByKey_sum [DecidableEq κ] (key : α → κ) (w : α → Int)
    (l : List α) :
    (((groupByKey key l).map (fun p => ((p.2.map w).sum))).sum) =
      (l.map w).sum :=
  groupByKey_sum_aux key w l.length l (Nat.le_refl _)

/-! ## Claim C3 -/

/-- C3 counterexample: port 23 is outside the well-known set
{80,443,53,22,21,25,110,143,993,995}, yet its port score is 0.3, not the
0.8 the claim asserts — `SUSPICIOUS_PORTS` only covers 1024–65535. -/
theorem c3_counterexample :
    beaconPortScore 23 = 3 / 10 ∧ COMMON_PORTS.contains 23 = false ∧
    beaconPortScore 23 ≠ 8 / 10 := by
  have h : isSuspiciousPort 23 = false := by decide
  refine ⟨?_, by decide, ?_⟩ <;>
    simp only [beaconPortScore, h, Bool.false_eq_true, if_false] <;> norm_num

/-- C3 (amended): the beacon port score is 0.8 exactly for destination
ports in [1024, 65535] outside the well-known set
{80,443,53,22,21,25,110,143,993,995}; well-known ports score 0.3, and so
do all ports below 1024 or above 65535, even though they are outside the
well-known set. -/
theorem c3_theorem (p : Int) :
    (1024 ≤ p → p < 65536 → COMMON_PORTS.contains p = false →
      beaconPortScore p = 8 / 10) ∧
    (COMMON_PORTS.contains p = true → beaconPortScore p = 3 / 10) ∧
    ((p < 1024 ∨ 65536 ≤ p) → beaconPortScore p = 3 / 10) := by
  refine ⟨?_, ?_, ?_⟩
  · intro h1 h2 h3
    have h3' : p ∉ COMMON_PORTS := by simpa using h3
    have hs : isSuspiciousPort p = true := by
      simp [isSuspiciousPort, h1, h2, h3']
    simp only [beaconPortScore, hs, if_true]
    norm_num
  · intro h
    have h' : p ∈ COMMON_PORTS := by simpa using h
    have hs : isSuspiciousPort p = false := by
      simp [isSuspiciousPort, h']
    simp only [beaconPortScore, hs, Bool.false_eq_true, if_false]
    norm_num
  · intro h
    have hs : isSuspiciousPort p = false := by
      rcases h with h | h
      · have hd : decide (1024 ≤ p) = false := decide_eq_false (by omega)
        simp [isSuspiciousPort, hd]
      · have hd : decide (p < 65536) = false := decide_eq_false (by omega)
        simp [isSuspiciousPort, hd]
    simp only [beaconPortScore, hs, Bool.false_eq_true, if_false]
    norm_num

/-- C3 witness: ports 4444 (suspicious), 80 (well-known), and 23
(below 1024, outside the well-known set). -/
theorem c3_witness :
    beaconPortScore 4444 = 8 / 10 ∧ beaconPortScore 80 = 3 / 10 ∧
    beaconPortScore 23 = 3 / 10 :=
  ⟨(c3_theorem 4444).1 (by norm_num) (by norm_num) (by decide),
   (c3_theorem 80).2.1 (by decide),
   (c3_theorem 23).2.2 (Or.inl (by norm_num))⟩

/-! ## Claim C4 -/

/-- C4 counterexample: a beacon candidate with confidence 0.999 is
emitted by the aggregator with score 99 (Python `int()` truncates),
whereas `round(0.999 × 100) = 100`: the score is not the
nearest-integer rounding the claim asserts. -/
theorem c4_counterexample :
    (compile_threat_summary [beacon999] [] [] [] [] 0).map Threat.score = [99] ∧
    round (((999 : ℚ) / 1000) * 100) = (100 : ℤ) := by
  constructor
  · simp only [compile_threat_summary, List.append_nil, List.map_cons,
      List.map_nil, pySort, insertLe]
    simp only [beaconThreat, beacon999, threatScore]
    norm_num [pyInt]
  · rw [round_eq]
    norm_num

/-- C4 (amended): every `score` (and integer `confidence`) field the
aggregator emits is `int(confidence×100)`, which truncates toward zero;
for the nonnegative confidences the detectors produce this is the floor
of confidence×100 — so a confidence of 0.999 yields score 99, not 100. -/
theorem c4_theorem (c : ℚ) (h : 0 ≤ c) : threatScore c = ⌊c * 100⌋ := by
  have h2 : (0 : ℚ) ≤ c * 100 := by positivity
  simp [threatScore, pyInt, h2]

/-- C4 witness: the amended statement at confidence 0.999. -/
theorem c4_witness : threatScore (999 / 1000) = ⌊(999 : ℚ) / 1000 * 100⌋ :=
  c4_theorem (999 / 1000) (by norm_num)

/-! ## Claim C7 -/

/-- C7: for any consistency score in [0,1] (which is the range of
`1/(1+cv)` for the coefficients of variation the beacon detector
computes), the beacon confidence equals
0.3·min(1,count/100) + 0.4·consistency + 0.2·interval_score +
0.1·port_score with the interval score exactly as the specification
words it, and the result never exceeds 1 (the final `min(1.0, ·)` of the
source is a no-op on the sum, which is at most 0.98). -/
theorem c7_theorem (count : Nat) (consistency avg : ℚ) (port : Int)
    (h0 : 0 ≤ consistency) (h1 : consistency ≤ 1) :
    calculate_beacon_confidence count consistency avg port =
      0.3 * min 1 ((count : ℚ) / 100) + 0.4 * consistency +
      0.2 * intervalScoreSpec avg + 0.1 * beaconPortScore port ∧
    calculate_beacon_confidence count consistency avg port ≤ 1 := by
  have hcs1 : min (1 : ℚ) ((count : ℚ) / 100) ≤ 1 := min_le_left _ _
  have hint : intervalScoreSpec avg ≤ 1 := by
    unfold intervalScoreSpec
    split_ifs <;> norm_num
  have hps : beaconPortScore port ≤ 8 / 10 := by
    unfold beaconPortScore
    split_ifs <;> norm_num
  simp only [calculate_beacon_confidence]
  rw [show (if 60 ≤ avg ∧ avg ≤ 3600 then (1 : ℚ)
      else if (30 ≤ avg ∧ avg < 60) ∨ (3600 < avg ∧ avg ≤ 7200) then 0.7
      else if avg < 30 then 0.3
      else 0.1) = intervalScoreSpec avg from rfl]
  have hsum : min (1 : ℚ) ((count : ℚ) / 100) * 0.3 + consistency * 0.4 +
      intervalScoreSpec avg * 0.2 + beaconPortScore port * 0.1 ≤ 1 := by
    nlinarith [hcs1, h1, hint, hps]
  constructor
  · rw [min_eq_right hsum]
    ring
  · exact min_le_left _ _

/-- C7 witness: 15 connections, consistency 1/2, mean interval 300 s,
port 4444. -/
theorem c7_witness :
    calculate_beacon_confidence 15 (1 / 2) 300 4444 =
      0.3 * min 1 ((15 : ℚ) / 100) + 0.4 * (1 / 2) +
      0.2 * intervalScoreSpec 300 + 0.1 * beaconPortScore 4444 :=
  (c7_theorem 15 (1 / 2) 300 4444 (by norm_num) (by norm_num)).1

/-! ## Claim C10 -/

/-- C10: for every string the address parser rejects, the internal-IP
test returns `False` instead of propagating the exception, so the
derived `is_internal_src`/`is_internal_dst` fields are total over
arbitrary address strings. -/
theorem c10_theorem (ip : String) (h : ip_address ip = none) :
    _is_internal_ip ip = false := by
  simp [_is_internal_ip, h]

/-- C10 witness: the string "not an ip" does not parse and tests as not
internal. -/
theorem c10_witness :
    ip_address "not an ip" = none ∧ _is_internal_ip "not an ip" = false :=
  ⟨by decide, c10_theorem "not an ip" (by decide)⟩

/-! ## Claim C2 -/

/-- C2 counterexample: a raw record with both IPs present whose
timestamp string is not ISO-8601 is discarded entirely by the
normalizer (the exception from `fromisoformat` hits the per-record
handler's `continue`), contradicting the claim that it is kept with the
current instant as timestamp. -/
theorem c2_counterexample :
    parse_flow_records isoModel 999 [rawBadTime] = [] ∧
    isoModel (replaceZ "not-a-timestamp") = none ∧
    rawBadTime.source_ip ≠ "" ∧ rawBadTime.dest_ip ≠ "" := by
  refine ⟨by decide, by decide, by decide, by decide⟩

/-- C2 (amended): the fall-back to the current instant applies only
when the raw timestamp value is missing/empty or is neither an int nor
a string — such records are kept with timestamp `now`; a string
timestamp that fails ISO-8601 parsing raises inside the per-record
handler and the whole record is discarded. -/
theorem c2_theorem (iso : String → Option ℚ) (now : ℚ) (f : RawFlow) :
    ((f.time = TimeVal.other ∨ f.time = TimeVal.str "" ∨ f.time = TimeVal.int 0) →
      f.source_ip ≠ "" → f.dest_ip ≠ "" →
      recTimestamps (parse_flow_records iso now [f]) = [now]) ∧
    (∀ s, f.time = TimeVal.str s → s ≠ "" → iso (replaceZ s) = none →
      parse_flow_records iso now [f] = []) := by
  constructor
  · intro ht h1 h2
    rcases ht with ht | ht | ht <;>
      simp [parse_flow_records, parseOneFlow, ht, h1, h2, recTimestamps,
        mkFlowRecord]
  · intro s hs hne hiso
    simp [parse_flow_records, parseOneFlow, hs, hne, hiso]

/-- C2 witness: a record whose `Time` value is a non-int non-string
object is kept with the current instant (999) as its timestamp. -/
theorem c2_witness :
    recTimestamps (parse_flow_records isoModel 999 [rawNoTime]) = [999] :=
  (c2_theorem isoModel 999 rawNoTime).1 (Or.inl rfl) (by decide) (by decide)

/-! ## Claim C1 -/

/-- C1 counterexample: the DNS detector raises while the beacon detector
succeeded with a surviving candidate; the engine returns the failure
dict — the beacon candidate does not appear anywhere and the whole batch
fails, contradicting the claimed partial-failure isolation. -/
theorem c1_counterexample :
    analyze_vcn_flows_with constBeaconDetector
      (fun r => Except.ok (detect_long_connections r))
      (fun r => Except.ok (detect_data_exfiltration r))
      (fun r => Except.ok (detect_port_scanning r))
      failingDnsDetector isoModel 0 1440 [rawAccept] =
      Report.failure "boom" := by
  rfl

/-- C1 (amended): an exception inside any single detector propagates to
the engine facade's single `except Exception` handler, which returns
`success=false` with the exception's message: the exception is not
re-raised to the caller, but no detector's candidates appear in the
report — the whole batch fails. -/
theorem c1_theorem
    (db : List FlowRecord → Except String (List BeaconCandidate))
    (dl : List FlowRecord → Except String (List LongConnection))
    (de : List FlowRecord → Except String (List DataExfiltrationEvent))
    (dp : List FlowRecord → Except String (List PortScanEvent))
    (dd : List FlowRecord → Except String (List DnsEvent))
    (iso : String → Option ℚ) (now : ℚ) (tpm : Int) (flows : List RawFlow)
    (e : String) (hne : flows.isEmpty = false)
    (hfail :
      db (parse_flow_records iso now flows) = Except.error e ∨
      (∃ bs, db (parse_flow_records iso now flows) = Except.ok bs ∧
        dl (parse_flow_records iso now flows) = Except.error e) ∨
      (∃ bs ls, db (parse_flow_records iso now flows) = Except.ok bs ∧
        dl (parse_flow_records iso now flows) = Except.ok ls ∧
        de (parse_flow_records iso now flows) = Except.error e) ∨
      (∃ bs ls es, db (parse_flow_records iso now flows) = Except.ok bs ∧
        dl (parse_flow_records iso now flows) = Except.ok ls ∧
        de (parse_flow_records iso now flows) = Except.ok es ∧
        dp (parse_flow_records iso now flows) = Except.error e) ∨
      (∃ bs ls es ps, db (parse_flow_records iso now flows) = Except.ok bs ∧
        dl (parse_flow_records iso now flows) = Except.ok ls ∧
        de (parse_flow_records iso now flows) = Except.ok es ∧
        dp (parse_flow_records iso now flows) = Except.ok ps ∧
        dd (parse_flow_records iso now flows) = Except.error e)) :
    analyze_vcn_flows_with db dl de dp dd iso now tpm flows =
      Report.failure e := by
  simp only [analyze_vcn_flows_with, hne, Bool.false_eq_true, if_false]
  rcases hfail with h | ⟨bs, h1, h2⟩ | ⟨bs, ls, h1, h2, h3⟩ |
    ⟨bs, ls, es, h1, h2, h3, h4⟩ | ⟨bs, ls, es, ps, h1, h2, h3, h4, h5⟩ <;>
    simp_all

/-- C1 witness: the amended statement at a concrete failing beacon
detector over one raw record. -/
theorem c1_witness :
    analyze_vcn_flows_with failingBeaconDetector
      (fun r => Except.ok (detect_long_connections r))
      (fun r => Except.ok (detect_data_exfiltration r))
      (fun r => Except.ok (detect_port_scanning r))
      (fun r => Except.ok (detect_suspicious_dns r))
      isoModel 7 1440 [rawAccept] = Report.failure "boom" :=
  c1_theorem failingBeaconDetector
    (fun r => Except.ok (detect_long_connections r))
    (fun r => Except.ok (detect_data_exfiltration r))
    (fun r => Except.ok (detect_port_scanning r))
    (fun r => Except.ok (detect_suspicious_dns r))
    isoModel 7 1440 [rawAccept] "boom" (by decide) (Or.inl rfl)

/-! ## Claim C9 -/

/-- C9: in every successful report, `stats.total_threats` equals the sum
of the five detectors' post-filter candidate counts. -/
theorem c9_theorem (iso : String → Option ℚ) (now : ℚ) (tpm : Int)
    (flows : List RawFlow) (hne : flows.isEmpty = false) :
    reportTotalThreats (analyze_vcn_flows iso now tpm flows) =
      some ((detect_beacons (parse_flow_records iso now flows)).length +
        (detect_long_connections (parse_flow_records iso now flows)).length +
        (detect_data_exfiltration (parse_flow_records iso now flows)).length +
        (detect_port_scanning (parse_flow_records iso now flows)).length +
        (detect_suspicious_dns (parse_flow_records iso now flows)).length) := by
  simp only [analyze_vcn_flows, analyze_vcn_flows_with, hne,
    Bool.false_eq_true, if_false, reportTotalThreats, calculate_threat_stats]
  simp only [List.length_append, List.length_map, Option.some.injEq]

/-- C9 witness: the statement at one concrete raw record. -/
theorem c9_witness :
    reportTotalThreats (analyze_vcn_flows isoModel 3 1440 [rawAccept]) =
      some ((detect_beacons (parse_flow_records isoModel 3 [rawAccept])).length +
        (detect_long_connections (parse_flow_records isoModel 3 [rawAccept])).length +
        (detect_data_exfiltration (parse_flow_records isoModel 3 [rawAccept])).length +
        (detect_port_scanning (parse_flow_records isoModel 3 [rawAccept])).length +
        (detect_suspicious_dns (parse_flow_records isoModel 3 [rawAccept])).length) :=
  c9_theorem isoModel 3 1440 [rawAccept] (by decide)

/-! ## Claim C5 -/

theorem parseOneFlow_now_indep (iso : String → Option ℚ) (now1 now2 : ℚ)
    (f : RawFlow) (h : time_no_fallback f = true) :
    parseOneFlow iso now1 f = parseOneFlow iso now2 f := by
  unfold time_no_fallback at h
  cases hf : f.time with
  | int n =>
    rw [hf] at h
    simp only [bne_iff_ne, ne_eq, decide_not] at h
    have hn : n ≠ 0 := by
      intro hc
      rw [hc] at h
      simp at h
    simp [parseOneFlow, hf, hn]
  | str s =>
    rw [hf] at h
    have hs : s ≠ "" := by
      intro hc
      rw [hc] at h
      simp at h
    simp [parseOneFlow, hf, hs]
  | other =>
    rw [hf] at h
    simp at h

theorem parse_now_indep (iso : String → Option ℚ) (now1 now2 : ℚ)
    (flows : List RawFlow) (h : ∀ f ∈ flows, time_no_fallback f = true) :
    parse_flow_records iso now1 flows = parse_flow_records iso now2 flows := by
  unfold parse_flow_records
  apply List.filterMap_congr
  intro f hf
  exact parseOneFlow_now_indep iso now1 now2 f (h f hf)

theorem compile_now_indep (b : List BeaconCandidate) (l : List LongConnection)
    (n1 n2 : ℚ) :
    compile_threat_summary b l [] [] [] n1 =
      compile_threat_summary b l [] [] [] n2 := by
  simp [compile_threat_summary]

/-- C5 (amended): the pipeline is a deterministic function of the raw
record list and the observed wall-clock instant.  When no record needs
the current-instant timestamp fallback and the run yields no
exfiltration, port-scan, or DNS-tunneling candidates, the report is
identical across runs at different instants; reports containing such
candidates embed `datetime.now()` in their `first_seen`/`last_seen`
fields and therefore differ between runs (see the counterexample). -/
theorem c5_theorem (iso : String → Option ℚ) (now1 now2 : ℚ) (tpm : Int)
    (flows : List RawFlow)
    (ht : ∀ f ∈ flows, time_no_fallback f = true)
    (hexfil : detect_data_exfiltration (parse_flow_records iso now1 flows) = [])
    (hscan : detect_port_scanning (parse_flow_records iso now1 flows) = [])
    (hdns : detect_suspicious_dns (parse_flow_records iso now1 flows) = []) :
    analyze_vcn_flows iso now1 tpm flows =
      analyze_vcn_flows iso now2 tpm flows := by
  have hp := parse_now_indep iso now1 now2 flows ht
  by_cases hne : flows.isEmpty = true
  · simp [analyze_vcn_flows, analyze_vcn_flows_with, hne]
  · rw [Bool.not_eq_true] at hne
    simp only [analyze_vcn_flows, analyze_vcn_flows_with, hne,
      Bool.false_eq_true, if_false]
    rw [← hp, hexfil, hscan, hdns, compile_now_indep]

/-- C5 witness: the amended statement over one well-timestamped accepted
record, at instants 5 and 7. -/
theorem c5_witness :
    analyze_vcn_flows isoModel 5 1440 [rawAccept] =
      analyze_vcn_flows isoModel 7 1440 [rawAccept] :=
  c5_theorem isoModel 5 7 1440 [rawAccept] (by decide) (by decide) (by decide)
    (by decide)

/-- C5 counterexample: the same ten rejected raw flows, analyzed at
wall-clock instants 0 and 1, produce different reports: the port-scan
threat's `first_seen`/`last_seen` embed `datetime.now()`.  The pipeline
is not a pure function of its input list. -/
theorem c5_counterexample :
    analyze_vcn_flows isoModel 0 1440 scanRaws ≠
      analyze_vcn_flows isoModel 1 1440 scanRaws := by
  intro h
  have h2 := congrArg reportFirstSeens h
  revert h2
  decide

/-! ## Claim C6 -/

theorem mk_beacon_candidate_props (key : String × String × Int)
    (gf : List FlowRecord) (b : BeaconCandidate)
    (h : mk_beacon_candidate key gf = some b) :
    b.source_ip = key.1 ∧ b.dest_ip = key.2.1 ∧ b.dest_port = key.2.2 ∧
      BEACON_MIN_CONNECTIONS ≤ gf.length := by
  unfold mk_beacon_candidate at h
  split at h
  · simp at h
  · rename_i hlen
    split at h
    · simp at h
    · split at h
      · obtain rfl := (Option.some.inj h).symm
        exact ⟨rfl, rfl, rfl, Nat.le_of_not_lt hlen⟩
      · simp at h

/-- C6: a tuple-group with fewer than 10 ACCEPT flows never yields a
beacon candidate, regardless of interval regularity. -/
theorem c6_theorem (flows : List FlowRecord) (src dst : String) (port : Int)
    (h : (flows.filter (fun f => pyUpper f.action == "ACCEPT" &&
        decide (beaconKey f = (src, dst, port)))).length <
      BEACON_MIN_CONNECTIONS) :
    ∀ b ∈ detect_beacons flows,
      ¬ (b.source_ip = src ∧ b.dest_ip = dst ∧ b.dest_port = port) := by
  intro b hb hmatch
  obtain ⟨h1, h2, h3⟩ := hmatch
  simp only [detect_beacons] at hb
  rw [mem_pySort, List.mem_filterMap] at hb
  obtain ⟨kg, hkg, hmk⟩ := hb
  obtain ⟨k, g⟩ := kg
  have hg := mem_groupByKey beaconKey _ k g hkg
  obtain ⟨hs, hd, hp, hlen⟩ := mk_beacon_candidate_props k g b hmk
  have hk : k = (src, dst, port) := by
    have hk1 : k.1 = src := hs.symm.trans h1
    have hk2 : k.2.1 = dst := hd.symm.trans h2
    have hk3 : k.2.2 = port := hp.symm.trans h3
    have : (k.1, k.2.1, k.2.2) = (src, dst, port) := by
      rw [hk1, hk2, hk3]
    simpa using this
  subst hk
  have hgf : g = flows.filter (fun f => pyUpper f.action == "ACCEPT" &&
      decide (beaconKey f = (src, dst, port))) := by
    rw [hg, List.filter_filter]
    apply List.filter_congr
    intro x _
    rw [Bool.and_comm]
    congr 1
  rw [hgf] at hlen
  exact absurd h (Nat.not_lt.mpr hlen)

/-- C6 witness: one ACCEPT flow on tuple (10.0.0.5, 8.8.8.8, 4444) —
fewer than 10 — yields no beacon candidate on that tuple. -/
theorem c6_witness : (detect_beacons [c6Flow]).all c6BeaconOK = true := by
  rw [List.all_eq_true]
  intro b hb
  have hno := c6_theorem [c6Flow] "10.0.0.5" "8.8.8.8" 4444 (by decide) b hb
  cases hcase : (b.source_ip == "10.0.0.5" && b.dest_ip == "8.8.8.8" &&
      b.dest_port == 4444) with
  | false => simp [c6BeaconOK, hcase]
  | true =>
    simp only [Bool.and_eq_true, beq_iff_eq] at hcase
    exact absurd ⟨hcase.1.1, hcase.1.2, hcase.2⟩ hno

/-! ## Claim C8 -/

theorem mk_exfil_event_props
    (inb : List (String × List (String × List FlowRecord)))
    (src : String) (dsts : List (String × List FlowRecord))
    (e : DataExfiltrationEvent) (h : mk_exfil_event inb src dsts = some e) :
    e.source_ip = src ∧
      EXFIL_MIN_BYTES ≤
        (dsts.map (fun d => ((d.2.map (fun f => f.bytes_sent)).sum))).sum := by
  unfold mk_exfil_event at h
  split at h
  · simp at h
  · rename_i hbytes
    split at h
    · simp at h
    · split at h
      · obtain rfl := (Option.some.inj h).symm
        exact ⟨rfl, le_of_not_lt hbytes⟩
      · simp at h

/-- C8: an internal source whose aggregated outbound bytes to external
destinations total less than 100 MiB never yields an exfiltration
event, regardless of the outbound:inbound byte ratio. -/
theorem c8_theorem (flows : List FlowRecord) (src : String)
    (h : ((flows.filter (fun f => (f.is_internal_src && !f.is_internal_dst) &&
        decide (f.source_ip = src))).map (fun f => f.bytes_sent)).sum <
      EXFIL_MIN_BYTES) :
    ∀ e ∈ detect_data_exfiltration flows, e.source_ip ≠ src := by
  intro e he hsrc
  simp only [detect_data_exfiltration] at he
  rw [mem_pySort, List.mem_filterMap] at he
  obtain ⟨sd, hsd, hmk⟩ := he
  rw [List.mem_map] at hsd
  obtain ⟨p, hp, rfl⟩ := hsd
  obtain ⟨k, g⟩ := p
  obtain ⟨hs1, hbig⟩ := mk_exfil_event_props _ _ _ e hmk
  have hk : k = src := hs1.symm.trans hsrc
  subst hk
  have hg := mem_groupByKey (fun f => f.source_ip) _ k g hp
  have hsum := groupByKey_sum (fun f => f.dest_ip) (fun f => f.bytes_sent) g
  rw [hsum] at hbig
  have hgf : g = flows.filter (fun f =>
      (f.is_internal_src && !f.is_internal_dst) &&
        decide (f.source_ip = k)) := by
    rw [hg, List.filter_filter]
    apply List.filter_congr
    intro x _
    rw [Bool.and_comm]
    congr 1
  rw [hgf] at hbig
  omega

/-- C8 witness: an internal host that sent only 3072 outbound bytes
yields no exfiltration event. -/
theorem c8_witness : (detect_data_exfiltration c8Flows).all c8EventOK = true := by
  rw [List.all_eq_true]
  intro e he
  have hne := c8_theorem c8Flows "10.0.0.5" (by decide) e he
  simp [c8EventOK, hne]

end VCN
